import Mathlib

/-!
Verification of the zoom-lomax recording-collection pipeline (src/main.rs).

A local wall-clock instant is embedded as a number of seconds `t : Nat` on a
linear local timeline (fixed-offset zone): the minute-of-hour is `t / 60 % 60`,
the hour-of-day is `t / 3600 % 24`, and the day index is `t / 86400`.
The filesystem is an explicit state (a list of directories and an association
list from file paths to contents); remote fetches, timestamp/timezone parsing
and the mail transport are function parameters.
-/

namespace ZoomLomax

/-- `FUDGE` constant from `round_time_to_hour` in src/main.rs. -/
def FUDGE : Nat := 5

/-- Embedding of `round_time_to_hour` (src/main.rs): `mtime.minute()` is
`mtime / 60 % 60`; `with_minute(0).with_second(0)` truncates to the hour,
i.e. subtracts `mtime % 3600`; adding `one_hour` adds `3600` seconds. -/
def round_time_to_hour (mtime : Nat) : Nat :=
  let minute := mtime / 60 % 60
  let one_hour := 3600
  if minute ≥ 60 - FUDGE then
    (mtime - mtime % 3600) + one_hour
  else if minute ≤ FUDGE then
    mtime - mtime % 3600
  else
    mtime

/-- Civil (proleptic Gregorian) date from a day count since 1970-01-01,
the arithmetic used by chrono's date formatting (Hinnant's algorithm,
specialised to non-negative day counts). Returns `(year, month, day)`. -/
def civilFromDays (z' : Nat) : Nat × Nat × Nat :=
  let z := z' + 719468
  let era := z / 146097
  let doe := z % 146097
  let yoe := (doe - doe / 1460 + doe / 36524 - doe / 146096) / 365
  let y := yoe + era * 400
  let doy := doe - (365 * yoe + yoe / 4 - yoe / 100)
  let mp := (5 * doy + 2) / 153
  let d := doy - (153 * mp + 2) / 5 + 1
  let m := if mp < 10 then mp + 3 else mp - 9
  (if m ≤ 2 then y + 1 else y, m, d)

/-- Zero-padded two-digit decimal rendering (chrono's `%m`, `%d`, `%H`, `%M`). -/
def pad2 (n : Nat) : String :=
  if n < 10 then "0" ++ toString n else toString n

/-- Zero-padded four-digit decimal rendering (chrono's `%Y`). -/
def pad4 (n : Nat) : String :=
  if n < 10 then "000" ++ toString n
  else if n < 100 then "00" ++ toString n
  else if n < 1000 then "0" ++ toString n
  else toString n

/-- `YYYY-MM-DD` string for a day count since 1970-01-01. -/
def dateStr (z : Nat) : String :=
  pad4 (civilFromDays z).1 ++ "-" ++ pad2 (civilFromDays z).2.1 ++ "-" ++
    pad2 (civilFromDays z).2.2

/-- Embedding of `mtime.format("%Y-%m-%d").to_string()`. -/
def formatDate (t : Nat) : String :=
  dateStr (t / 86400)

/-- Embedding of `mtime.format("%H.%M").to_string()`. -/
def formatTime (t : Nat) : String :=
  pad2 (t / 3600 % 24) ++ "." ++ pad2 (t / 60 % 60)

/-- `RecordingFile` struct from src/main.rs. -/
structure RecordingFile where
  outfile : String
  url : String
deriving DecidableEq

/-- `Recording` struct from src/main.rs. -/
structure Recording where
  date : String
  time : String
  file : RecordingFile
deriving DecidableEq

/-- `Recordings` struct from src/main.rs: the manifest accumulated by a run. -/
structure Recordings where
  recordings : List Recording
deriving DecidableEq

/-- `ZoomRecordingFile` struct from src/main.rs. -/
structure ZoomRecordingFile where
  file_type : String
  download_url : String
deriving DecidableEq

/-- `ZoomMeeting` struct from src/main.rs. -/
structure ZoomMeeting where
  start_time : String
  timezone : String
  recording_files : List ZoomRecordingFile
deriving DecidableEq

/-- `ZoomMeetings` struct from src/main.rs. -/
structure ZoomMeetings where
  meetings : List ZoomMeeting
deriving DecidableEq

/-- `Config` struct from src/main.rs; the `notify` mailbox is kept as its
string rendering. -/
structure Config where
  api_key : String
  api_secret : String
  user : String
  output_dir : String
  days : Int
  notify : Option String
deriving DecidableEq

/-- Explicit filesystem state: the set of directories that exist and an
association list from file paths to file contents (first binding wins). -/
structure Fs where
  dirs : List String
  files : List (String × String)
deriving DecidableEq

/-- Embedding of `Path::exists` on the explicit filesystem state. -/
def Fs.existsFile (fs : Fs) (p : String) : Bool :=
  fs.files.any (fun e => e.1 == p)

/-- Contents at a path (first binding wins). -/
def Fs.read (fs : Fs) (p : String) : Option String :=
  (fs.files.find? (fun e => e.1 == p)).map (fun e => e.2)

/-- Embedding of `create_meeting_dir` (src/main.rs): builds
`output_dir/date` and ensures it exists (`fs::create_dir_all`, a no-op when
the directory is already present). Returns the directory path and the new
filesystem state. -/
def create_meeting_dir (config : Config) (date : String) (fs : Fs) :
    String × Fs :=
  let dir := config.output_dir ++ "/" ++ date
  (dir, { fs with dirs := if fs.dirs.contains dir then fs.dirs
                          else dir :: fs.dirs })

/-- Embedding of `download` (src/main.rs): fetches `url` from the remote
(`remote` maps a URL to the bytes served there) and writes the body to
`outfile`. -/
def download (remote : String → String) (url : String) (outfile : String)
    (fs : Fs) : Fs :=
  { fs with files := (outfile, remote url) :: fs.files }

/-- Loop body of `download_meetings` (src/main.rs) for one recording:
create the dated directory, build the target path, skip if the file already
exists, otherwise download. -/
def download_meetings_step (remote : String → String) (config : Config)
    (fs : Fs) (recording : Recording) : Fs :=
  let dirfs := create_meeting_dir config recording.date fs
  let outfile := dirfs.1 ++ "/" ++ recording.file.outfile
  if dirfs.2.existsFile outfile then dirfs.2
  else download remote recording.file.url outfile dirfs.2

/-- Embedding of `download_meetings` (src/main.rs): fold the per-recording
step over the manifest. -/
def download_meetings (remote : String → String) (config : Config)
    (rlist : Recordings) (fs : Fs) : Fs :=
  rlist.recordings.foldl (download_meetings_step remote config) fs

/-- The full path at which `download_meetings` materialises a recording:
`output_dir/date/outfile`. -/
def targetPath (config : Config) (recording : Recording) : String :=
  config.output_dir ++ "/" ++ recording.date ++ "/" ++ recording.file.outfile

/-- Embedding of `str::to_ascii_lowercase`: lower-case each character
(`Char.toLower` is exactly the ASCII mapping). -/
def to_ascii_lowercase (s : String) : String :=
  ⟨s.data.map Char.toLower⟩

/-- Embedding of `process_meeting` (src/main.rs): one `Recording` is pushed
per entry of `recording_files`, in order, with `date` from `%Y-%m-%d`,
`time` from `%H.%M`, `outfile = time ++ "." ++ lowercased file_type` and the
recording's download URL. -/
def process_meeting (rlist : Recordings) (meeting : ZoomMeeting)
    (mtime : Nat) : Recordings :=
  let date := formatDate mtime
  { recordings := rlist.recordings ++
      meeting.recording_files.map (fun recording =>
        let time := formatTime mtime
        { date := date, time := time,
          file := { outfile :=
                      time ++ "." ++ to_ascii_lowercase recording.file_type,
                    url := recording.download_url } }) }

/-- A composed email: recipient, subject and body. -/
structure Email where
  recipient : String
  subject : String
  body : String
deriving DecidableEq

/-- Embedding of `send_notification` (src/main.rs). `now` is the current
local time (`Local::now()`), `transport` the mail transport (SES when
`is_lambda`, sendmail otherwise — both log a failure identically and return
nothing). Returns the composed email and the optional logged diagnostic. -/
def send_notification (transport : Email → Except String Unit) (now : Nat)
    (config : Config) (is_lambda : Bool) (rlist : Recordings) :
    Email × Option String :=
  let subject := formatDate now ++ ": new Zoom recordings"
  let recipient := config.notify.getD ""
  let body := rlist.recordings.foldl (fun body recording =>
      if is_lambda then
        body ++ (recording.date ++ "/" ++ recording.file.outfile ++ ": " ++
          recording.file.url ++ "\n")
      else
        body ++ (config.output_dir ++ "/" ++ recording.date ++ "/" ++
          recording.file.outfile ++ "\n"))
    "Zoom recordings are available:\n\n"
  let email : Email :=
    { recipient := recipient, subject := subject, body := body }
  (email,
   match transport email with
   | Except.ok _ => none
   | Except.error e =>
       some ("Couldn't send email to " ++ recipient ++ ": " ++ e))

/-- Observable outcome of `run` (src/main.rs): the returned manifest, the
final filesystem state, the notification sent (if any) and the logged
send-failure diagnostic (if any). -/
structure RunResult where
  rlist : Recordings
  fs : Fs
  sent : Option Email
  diag : Option String
deriving DecidableEq

/-- Embedding of `run` (src/main.rs). `parseLocal` stands for
`DateTime::parse_from_rfc3339(start_time).with_timezone(timezone)` (local
seconds); each meeting's time is rounded and the meeting processed into the
manifest; in non-lambda mode the manifest is materialised by
`download_meetings`; a notification is sent when the manifest is non-empty
and a recipient is configured. -/
def run (parseLocal : String → String → Nat) (remote : String → String)
    (transport : Email → Except String Unit) (now : Nat) (config : Config)
    (is_lambda : Bool) (meetings : ZoomMeetings) (fs : Fs) : RunResult :=
  let rlist := meetings.meetings.foldl (fun rlist meeting =>
      let mtime := round_time_to_hour
        (parseLocal meeting.start_time meeting.timezone)
      process_meeting rlist meeting mtime)
    { recordings := [] }
  let fs' := if is_lambda then fs else download_meetings remote config rlist fs
  if !rlist.recordings.isEmpty && config.notify.isSome then
    let nres := send_notification transport now config is_lambda rlist
    { rlist := rlist, fs := fs', sent := some nres.1, diag := nres.2 }
  else
    { rlist := rlist, fs := fs', sent := none, diag := none }

/-- JSON values, restricted to the shapes the config file uses. -/
inductive Json where
  | str : String → Json
  | num : Int → Json
  | obj : List (String × Json) → Json
  | null : Json

/-- Field lookup in a JSON object (first binding wins). -/
def Json.getField : Json → String → Option Json
  | Json.obj fields, name => (fields.find? (fun f => f.1 == name)).map (fun f => f.2)
  | _, _ => none

/-- A JSON value as a string, when it is one. -/
def Json.asStr : Json → Option String
  | Json.str s => some s
  | _ => none

/-- A JSON value as an integer, when it is one. -/
def Json.asInt : Json → Option Int
  | Json.num n => some n
  | _ => none

/-- `default_days` from src/main.rs: serde default for the `days` field. -/
def default_days : Int := 1

/-- Embedding of `read_config` (src/main.rs): serde deserialisation of
`Config`. `api_key`, `api_secret`, `user`, `output_dir` are required strings;
`days` is an `i64` defaulting to `default_days` when absent; `notify` is
optional and, when a string is present, must parse as a `Mailbox` —
`mailboxFromStr` stands for `lettre_email::Mailbox::from_str`, returning
`none` on a syntactically invalid address, which aborts the parse (the
custom `EmailAddress` deserialiser). -/
def read_config (mailboxFromStr : String → Option String) (j : Json) :
    Option Config := do
  let api_key ← (j.getField "api_key").bind Json.asStr
  let api_secret ← (j.getField "api_secret").bind Json.asStr
  let user ← (j.getField "user").bind Json.asStr
  let output_dir ← (j.getField "output_dir").bind Json.asStr
  let days ← match j.getField "days" with
    | none => some default_days
    | some v => v.asInt
  let notify ← match j.getField "notify" with
    | none => some none
    | some Json.null => some none
    | some v => (v.asStr.bind mailboxFromStr).map some
  pure { api_key := api_key, api_secret := api_secret, user := user,
         output_dir := output_dir, days := days, notify := notify }

/-- Concatenation of a list of lines. -/
def linesConcat : List String → String
  | [] => ""
  | s :: rest => s ++ linesConcat rest

/-- C1: for every local meeting time with minute-of-hour `m`: if `m ∈ [55,59]`
the result is the next hour with minutes and seconds zeroed; if `m ∈ [0,5]` the
same hour with minutes and seconds zeroed; if `m ∈ [6,54]` the time is
unchanged. -/
theorem c1_round_time_to_hour_cases (t : Nat) :
    (55 ≤ t / 60 % 60 → round_time_to_hour t = (t / 3600 + 1) * 3600) ∧
    (t / 60 % 60 ≤ 5 → round_time_to_hour t = t / 3600 * 3600) ∧
    (6 ≤ t / 60 % 60 → t / 60 % 60 ≤ 54 → round_time_to_hour t = t) := by
  simp only [round_time_to_hour, FUDGE]
  refine ⟨fun h => ?_, fun h => ?_, fun h h' => ?_⟩ <;> split_ifs <;> omega

/-- C1 witness: 09:59:00 rounds up to 10:00:00, 00:05:00 rounds down to
00:00:00, 00:30:00 is unchanged. -/
theorem c1_round_time_to_hour_cases_witness :
    round_time_to_hour 35940 = (35940 / 3600 + 1) * 3600 ∧
    round_time_to_hour 300 = 300 / 3600 * 3600 ∧
    round_time_to_hour 1800 = 1800 :=
  ⟨(c1_round_time_to_hour_cases 35940).1 (by decide),
   (c1_round_time_to_hour_cases 300).2.1 (by decide),
   (c1_round_time_to_hour_cases 1800).2.2 (by decide) (by decide)⟩

/-- C9: hour-rounding is idempotent: applying `round_time_to_hour` twice gives
the same result as applying it once. -/
theorem c9_round_time_to_hour_idempotent (t : Nat) :
    round_time_to_hour (round_time_to_hour t) = round_time_to_hour t := by
  simp only [round_time_to_hour, FUDGE]
  split_ifs <;> omega

/-- C10: when the minute-of-hour is in `[55,59]`, rounding up moves to the
successor hour of the day (mod 24); when moreover the hour is 23 the rounded
time falls on the next day index, so the derived `dateKey` is the date string
of the following day, different from the start time's day index. -/
theorem c10_round_up_carries_past_midnight (t : Nat) (h : 55 ≤ t / 60 % 60) :
    round_time_to_hour t / 3600 % 24 = (t / 3600 % 24 + 1) % 24 ∧
    (t / 3600 % 24 = 23 →
      round_time_to_hour t / 86400 = t / 86400 + 1 ∧
      round_time_to_hour t / 3600 % 24 = 0 ∧
      formatDate (round_time_to_hour t) = dateStr (t / 86400 + 1) ∧
      round_time_to_hour t / 86400 ≠ t / 86400) := by
  have hr : round_time_to_hour t = (t - t % 3600) + 3600 := by
    simp only [round_time_to_hour, FUDGE]
    split_ifs <;> omega
  refine ⟨by omega, fun h23 => ?_⟩
  have hday : round_time_to_hour t / 86400 = t / 86400 + 1 := by omega
  refine ⟨hday, by omega, ?_, by omega⟩
  simp only [formatDate, hday]

/-- C10 witness: at local time 23:59:00 of day 0 (1970-01-01), the rounded
time lies on day 1 and is filed under `dateKey` 1970-01-02, a different
calendar date, with derived hour 0. -/
theorem c10_round_up_carries_past_midnight_witness :
    round_time_to_hour 86340 / 86400 = 86340 / 86400 + 1 ∧
    round_time_to_hour 86340 / 3600 % 24 = 0 ∧
    formatDate (round_time_to_hour 86340) = dateStr (86340 / 86400 + 1) ∧
    formatDate (round_time_to_hour 86340) ≠ formatDate 86340 :=
  ⟨((c10_round_up_carries_past_midnight 86340 (by decide)).2 (by decide)).1,
   ((c10_round_up_carries_past_midnight 86340 (by decide)).2 (by decide)).2.1,
   ((c10_round_up_carries_past_midnight 86340 (by decide)).2 (by decide)).2.2.1,
   by decide⟩

/-- C3: for one planned artifact during materialization: if a file already
exists at the target path, the step performs no write (the file map is
unchanged, so the existing contents are untouched and no download happens);
otherwise the containing directory is present afterwards (created if absent)
and the remote bytes for the recording's URL are written at the target
path. -/
theorem c3_materialization_step (remote : String → String) (config : Config)
    (fs : Fs) (recording : Recording) :
    (fs.existsFile (targetPath config recording) = true →
      (download_meetings_step remote config fs recording).files = fs.files) ∧
    (fs.existsFile (targetPath config recording) = false →
      (download_meetings_step remote config fs recording).files =
        (targetPath config recording, remote recording.file.url) ::
          fs.files ∧
      (download_meetings_step remote config fs recording).dirs.contains
        (config.output_dir ++ "/" ++ recording.date) = true) := by
  simp only [download_meetings_step, create_meeting_dir, download,
    targetPath, Fs.existsFile]
  constructor
  · intro h
    split_ifs <;> simp_all
  · intro h
    split_ifs with h1 h2 h2 <;> simp_all

/-- C3 witness: with an empty filesystem the artifact is fetched and
written and its directory created; with the file pre-existing, the file map
is unchanged. -/
theorem c3_materialization_step_witness :
    ((download_meetings_step (fun _ => "bytes")
          (Config.mk "k" "s" "u" "/out" 1 none) (Fs.mk [] [])
          (Recording.mk "1970-01-01" "00.00"
            (RecordingFile.mk "00.00.mp4" "https://zoom/dl"))).files =
        (targetPath (Config.mk "k" "s" "u" "/out" 1 none)
           (Recording.mk "1970-01-01" "00.00"
             (RecordingFile.mk "00.00.mp4" "https://zoom/dl")),
         "bytes") :: (Fs.mk [] []).files ∧
      (download_meetings_step (fun _ => "bytes")
          (Config.mk "k" "s" "u" "/out" 1 none) (Fs.mk [] [])
          (Recording.mk "1970-01-01" "00.00"
            (RecordingFile.mk "00.00.mp4" "https://zoom/dl"))).dirs.contains
        ("/out" ++ "/" ++ "1970-01-01") = true) ∧
    (download_meetings_step (fun _ => "bytes")
        (Config.mk "k" "s" "u" "/out" 1 none)
        (Fs.mk ["/out/1970-01-01"] [("/out/1970-01-01/00.00.mp4", "old")])
        (Recording.mk "1970-01-01" "00.00"
          (RecordingFile.mk "00.00.mp4" "https://zoom/dl"))).files =
      (Fs.mk ["/out/1970-01-01"]
        [("/out/1970-01-01/00.00.mp4", "old")]).files :=
  ⟨(c3_materialization_step (fun _ => "bytes")
      (Config.mk "k" "s" "u" "/out" 1 none) (Fs.mk [] [])
      (Recording.mk "1970-01-01" "00.00"
        (RecordingFile.mk "00.00.mp4" "https://zoom/dl"))).2 (by decide),
   (c3_materialization_step (fun _ => "bytes")
      (Config.mk "k" "s" "u" "/out" 1 none)
      (Fs.mk ["/out/1970-01-01"] [("/out/1970-01-01/00.00.mp4", "old")])
      (Recording.mk "1970-01-01" "00.00"
        (RecordingFile.mk "00.00.mp4" "https://zoom/dl"))).1 (by decide)⟩

/-- A file present in the filesystem is still present after one
materialisation step. -/
theorem step_existsFile_mono (remote : String → String) (config : Config)
    (fs : Fs) (r : Recording) (p : String) (h : fs.existsFile p = true) :
    (download_meetings_step remote config fs r).existsFile p = true := by
  simp only [download_meetings_step, create_meeting_dir, download,
    Fs.existsFile] at *
  split_ifs <;> simp_all

/-- A directory present in the filesystem is still present after one
materialisation step. -/
theorem step_dirs_mono (remote : String → String) (config : Config)
    (fs : Fs) (r : Recording) (d : String) (h : fs.dirs.contains d = true) :
    (download_meetings_step remote config fs r).dirs.contains d = true := by
  simp only [download_meetings_step, create_meeting_dir, download]
  split_ifs <;> simp_all

/-- Files and directories survive materialising a whole list of
recordings. -/
theorem foldl_step_mono (remote : String → String) (config : Config)
    (l : List Recording) (fs : Fs) (p d : String)
    (hf : fs.existsFile p = true) (hd : fs.dirs.contains d = true) :
    (l.foldl (download_meetings_step remote config) fs).existsFile p = true ∧
    (l.foldl (download_meetings_step remote config) fs).dirs.contains d =
      true := by
  induction l generalizing fs with
  | nil => exact ⟨hf, hd⟩
  | cons a l ih =>
      exact ih _ (step_existsFile_mono remote config fs a p hf)
        (step_dirs_mono remote config fs a d hd)

/-- After one materialisation step for a recording, its target file and its
dated directory exist. -/
theorem step_establishes (remote : String → String) (config : Config)
    (fs : Fs) (r : Recording) :
    (download_meetings_step remote config fs r).existsFile
      (targetPath config r) = true ∧
    (download_meetings_step remote config fs r).dirs.contains
      (config.output_dir ++ "/" ++ r.date) = true := by
  simp only [download_meetings_step, create_meeting_dir, download,
    targetPath, Fs.existsFile]
  split_ifs <;> simp_all

/-- After `download_meetings`, every recording of the manifest has its
target file and dated directory on disk. -/
theorem download_meetings_post (remote : String → String) (config : Config)
    (l : List Recording) (fs : Fs) :
    ∀ r ∈ l,
      (l.foldl (download_meetings_step remote config) fs).existsFile
        (targetPath config r) = true ∧
      (l.foldl (download_meetings_step remote config) fs).dirs.contains
        (config.output_dir ++ "/" ++ r.date) = true := by
  induction l generalizing fs with
  | nil => intro r hr; cases hr
  | cons a l ih =>
      intro r hr
      rcases List.mem_cons.mp hr with rfl | hr
      · have h := step_establishes remote config fs r
        exact foldl_step_mono remote config l _ _ _ h.1 h.2
      · exact ih _ r hr

/-- When a recording's target file and dated directory already exist, the
materialisation step is the identity on the filesystem. -/
theorem step_skip (remote : String → String) (config : Config) (fs : Fs)
    (r : Recording)
    (hf : fs.existsFile (targetPath config r) = true)
    (hd : fs.dirs.contains (config.output_dir ++ "/" ++ r.date) = true) :
    download_meetings_step remote config fs r = fs := by
  simp only [download_meetings_step, create_meeting_dir, targetPath,
    Fs.existsFile] at *
  have hd' : config.output_dir ++ "/" ++ r.date ∈ fs.dirs := by simpa using hd
  simp [hf, hd']

/-- When every recording's target file and dated directory already exist,
materialising the whole list is the identity on the filesystem. -/
theorem foldl_skip_all (remote : String → String) (config : Config)
    (l : List Recording) (fs : Fs)
    (h : ∀ r ∈ l, fs.existsFile (targetPath config r) = true ∧
      fs.dirs.contains (config.output_dir ++ "/" ++ r.date) = true) :
    l.foldl (download_meetings_step remote config) fs = fs := by
  induction l with
  | nil => rfl
  | cons a l ih =>
      have ha := h a (List.mem_cons_self a l)
      rw [List.foldl_cons, step_skip remote config fs a ha.1 ha.2]
      exact ih (fun r hr => h r (List.mem_cons_of_mem a hr))

/-- Materialising the same manifest a second time changes nothing. -/
theorem download_meetings_idem (remote : String → String) (config : Config)
    (rlist : Recordings) (fs : Fs) :
    download_meetings remote config rlist
        (download_meetings remote config rlist fs) =
      download_meetings remote config rlist fs := by
  unfold download_meetings
  exact foldl_skip_all remote config rlist.recordings _
    (download_meetings_post remote config rlist.recordings fs)

/-- The manifest returned by `run` is the fold of `process_meeting` over the
meetings, independent of the filesystem, the transport and the remote. -/
theorem run_rlist (parseLocal : String → String → Nat)
    (remote : String → String) (transport : Email → Except String Unit)
    (now : Nat) (config : Config) (is_lambda : Bool)
    (meetings : ZoomMeetings) (fs : Fs) :
    (run parseLocal remote transport now config is_lambda meetings fs).rlist =
      meetings.meetings.foldl (fun rlist meeting =>
        process_meeting rlist meeting (round_time_to_hour
          (parseLocal meeting.start_time meeting.timezone)))
        { recordings := [] } := by
  simp only [run]
  split <;> rfl

/-- The filesystem returned by `run`: unchanged in lambda mode, otherwise
the result of materialising the planned manifest. -/
theorem run_fs (parseLocal : String → String → Nat)
    (remote : String → String) (transport : Email → Except String Unit)
    (now : Nat) (config : Config) (is_lambda : Bool)
    (meetings : ZoomMeetings) (fs : Fs) :
    (run parseLocal remote transport now config is_lambda meetings fs).fs =
      if is_lambda then fs
      else download_meetings remote config
        (run parseLocal remote transport now config is_lambda meetings
          fs).rlist fs := by
  rw [run_rlist]
  simp only [run]
  split <;> rfl

/-- C2 counterexample: a run whose only planned artifact already exists on
disk creates no file (the file map is unchanged), yet returns a non-empty
manifest — the manifest does not exclude pre-existing artifacts — and a
second run over the same remote data returns a non-empty manifest as
well. -/
theorem c2_counterexample :
    (run (fun _ _ => 0) (fun _ => "bytes") (fun _ => Except.ok ()) 0
        (Config.mk "k" "s" "u" "/out" 1 none) false
        (ZoomMeetings.mk [ZoomMeeting.mk "st" "tz"
          [ZoomRecordingFile.mk "MP4" "https://zoom/dl"]])
        (Fs.mk ["/out/1970-01-01"]
          [("/out/1970-01-01/00.00.mp4", "old")])).fs.files =
      [("/out/1970-01-01/00.00.mp4", "old")] ∧
    (run (fun _ _ => 0) (fun _ => "bytes") (fun _ => Except.ok ()) 0
        (Config.mk "k" "s" "u" "/out" 1 none) false
        (ZoomMeetings.mk [ZoomMeeting.mk "st" "tz"
          [ZoomRecordingFile.mk "MP4" "https://zoom/dl"]])
        (Fs.mk ["/out/1970-01-01"]
          [("/out/1970-01-01/00.00.mp4", "old")])).rlist.recordings ≠ [] ∧
    (run (fun _ _ => 0) (fun _ => "bytes") (fun _ => Except.ok ()) 0
        (Config.mk "k" "s" "u" "/out" 1 none) false
        (ZoomMeetings.mk [ZoomMeeting.mk "st" "tz"
          [ZoomRecordingFile.mk "MP4" "https://zoom/dl"]])
        ((run (fun _ _ => 0) (fun _ => "bytes") (fun _ => Except.ok ()) 0
          (Config.mk "k" "s" "u" "/out" 1 none) false
          (ZoomMeetings.mk [ZoomMeeting.mk "st" "tz"
            [ZoomRecordingFile.mk "MP4" "https://zoom/dl"]])
          (Fs.mk ["/out/1970-01-01"]
            [("/out/1970-01-01/00.00.mp4", "old")])).fs)).rlist.recordings ≠
      [] := by
  refine ⟨by decide, by decide, by decide⟩

/-- C2 amended: the manifest returned by a run contains every planned
artifact whether or not its target path pre-existed; running the pipeline
twice against the same remote data and output directory leaves the file set
unchanged after the first run and returns on the second run a manifest
identical to the first (not an empty one). -/
theorem c2_second_run_identical (parseLocal : String → String → Nat)
    (remote : String → String) (transport : Email → Except String Unit)
    (now : Nat) (config : Config) (meetings : ZoomMeetings) (fs : Fs) :
    (run parseLocal remote transport now config false meetings
        (run parseLocal remote transport now config false meetings
          fs).fs).rlist =
      (run parseLocal remote transport now config false meetings fs).rlist ∧
    (run parseLocal remote transport now config false meetings
        (run parseLocal remote transport now config false meetings
          fs).fs).fs =
      (run parseLocal remote transport now config false meetings fs).fs := by
  have hfs : ∀ fs' : Fs,
      (run parseLocal remote transport now config false meetings fs').fs =
        download_meetings remote config
          (run parseLocal remote transport now config false meetings
            fs').rlist fs' := by
    intro fs'
    rw [run_fs]
    simp
  constructor
  · rw [run_rlist, run_rlist]
  · rw [hfs, hfs, run_rlist, run_rlist]
    exact download_meetings_idem remote config _ fs

/-- Case analysis on the notification branch of `run`: either nothing is
sent and nothing logged, or the manifest was non-empty and a recipient was
configured. -/
theorem run_sent_cases (parseLocal : String → String → Nat)
    (remote : String → String) (transport : Email → Except String Unit)
    (now : Nat) (config : Config) (is_lambda : Bool)
    (meetings : ZoomMeetings) (fs : Fs) :
    ((run parseLocal remote transport now config is_lambda meetings
        fs).sent = none ∧
     (run parseLocal remote transport now config is_lambda meetings
        fs).diag = none) ∨
    ((run parseLocal remote transport now config is_lambda meetings
        fs).rlist.recordings ≠ [] ∧ config.notify ≠ none) := by
  simp only [run]
  split
  next hcond => right; constructor <;> simp_all [Option.isSome_iff_ne_none]
  next => left; exact ⟨rfl, rfl⟩

/-- C5 amended: if the run plans no artifacts (the manifest is empty) or no
notification recipient is configured, then no notification is composed and
no send occurs. (The code's condition is an empty planned manifest, not "no
artifacts newly written": a run whose artifacts all pre-exist writes
nothing yet still notifies — see the counterexample.) -/
theorem c5_notification_suppression (parseLocal : String → String → Nat)
    (remote : String → String) (transport : Email → Except String Unit)
    (now : Nat) (config : Config) (is_lambda : Bool)
    (meetings : ZoomMeetings) (fs : Fs)
    (h : (run parseLocal remote transport now config is_lambda meetings
        fs).rlist.recordings = [] ∨ config.notify = none) :
    (run parseLocal remote transport now config is_lambda meetings
        fs).sent = none ∧
    (run parseLocal remote transport now config is_lambda meetings
        fs).diag = none := by
  rcases run_sent_cases parseLocal remote transport now config is_lambda
      meetings fs with hc | hc
  · exact hc
  · rcases h with h | h
    · exact (hc.1 h).elim
    · exact (hc.2 h).elim

/-- C5 witness: with no recipient configured, the run composes and sends
nothing. -/
theorem c5_notification_suppression_witness :
    (run (fun _ _ => 0) (fun _ => "bytes") (fun _ => Except.ok ()) 0
        (Config.mk "k" "s" "u" "/out" 1 none) false
        (ZoomMeetings.mk [ZoomMeeting.mk "st" "tz"
          [ZoomRecordingFile.mk "MP4" "https://zoom/dl"]])
        (Fs.mk [] [])).sent = none ∧
    (run (fun _ _ => 0) (fun _ => "bytes") (fun _ => Except.ok ()) 0
        (Config.mk "k" "s" "u" "/out" 1 none) false
        (ZoomMeetings.mk [ZoomMeeting.mk "st" "tz"
          [ZoomRecordingFile.mk "MP4" "https://zoom/dl"]])
        (Fs.mk [] [])).diag = none :=
  c5_notification_suppression (fun _ _ => 0) (fun _ => "bytes")
    (fun _ => Except.ok ()) 0 (Config.mk "k" "s" "u" "/out" 1 none) false
    (ZoomMeetings.mk [ZoomMeeting.mk "st" "tz"
      [ZoomRecordingFile.mk "MP4" "https://zoom/dl"]])
    (Fs.mk [] []) (Or.inr rfl)

/-- C5 counterexample: a run whose only artifact pre-exists writes nothing
(no artifact is newly written) yet, with a recipient configured, a
notification is still composed and sent — refuting the claim's first
disjunct. -/
theorem c5_counterexample :
    (run (fun _ _ => 0) (fun _ => "bytes") (fun _ => Except.ok ()) 0
        (Config.mk "k" "s" "u" "/out" 1 (some "a@b.c")) false
        (ZoomMeetings.mk [ZoomMeeting.mk "st" "tz"
          [ZoomRecordingFile.mk "MP4" "https://zoom/dl"]])
        (Fs.mk ["/out/1970-01-01"]
          [("/out/1970-01-01/00.00.mp4", "old")])).fs.files =
      [("/out/1970-01-01/00.00.mp4", "old")] ∧
    (run (fun _ _ => 0) (fun _ => "bytes") (fun _ => Except.ok ()) 0
        (Config.mk "k" "s" "u" "/out" 1 (some "a@b.c")) false
        (ZoomMeetings.mk [ZoomMeeting.mk "st" "tz"
          [ZoomRecordingFile.mk "MP4" "https://zoom/dl"]])
        (Fs.mk ["/out/1970-01-01"]
          [("/out/1970-01-01/00.00.mp4", "old")])).sent ≠ none := by
  refine ⟨by decide, by decide⟩

/-- C4: planning a meeting appends one artifact per recording file, in the
order of `recording_files`; each target path is
`output_dir/dateKey/timeKey.ext` with `dateKey = %Y-%m-%d`,
`timeKey = %H.%M` of the (rounded) local time and `ext` the lower-cased
`file_type`; in particular a `file_type` of `"MP4"` yields an outfile of the
form `timeKey ++ "." ++ "mp4"`, i.e. ending in `.mp4`. Both equations are
functional in the inputs, so identical inputs yield byte-identical path
sequences. -/
theorem c4_plan_paths (config : Config) (meeting : ZoomMeeting) (t : Nat)
    (rlist : Recordings) :
    (process_meeting rlist meeting t).recordings =
      rlist.recordings ++ meeting.recording_files.map (fun rf =>
        { date := formatDate t, time := formatTime t,
          file := { outfile :=
                      formatTime t ++ "." ++ to_ascii_lowercase rf.file_type,
                    url := rf.download_url } }) ∧
    ((process_meeting rlist meeting t).recordings.drop
        rlist.recordings.length).map (targetPath config) =
      meeting.recording_files.map (fun rf =>
        config.output_dir ++ "/" ++ formatDate t ++ "/" ++
          (formatTime t ++ "." ++ to_ascii_lowercase rf.file_type)) ∧
    (∀ rf ∈ meeting.recording_files, rf.file_type = "MP4" →
      formatTime t ++ "." ++ to_ascii_lowercase rf.file_type =
        formatTime t ++ "." ++ "mp4") := by
  refine ⟨rfl, ?_, ?_⟩
  · simp only [process_meeting, List.drop_left, List.map_map]
    rfl
  · intro rf _ hty
    rw [hty]
    rfl

/-- C4 witness: a concrete meeting with an `"MP4"` and an `"M4A"` recording
at local time 09:58 (rounded to 10:00) plans exactly the two paths
`/out/1970-01-01/10.00.mp4` and `/out/1970-01-01/10.00.m4a`, in order, and
the `"MP4"` outfile ends in `.mp4`. -/
theorem c4_plan_paths_witness :
    ((process_meeting (Recordings.mk [])
        (ZoomMeeting.mk "st" "tz"
          [ZoomRecordingFile.mk "MP4" "https://zoom/v",
           ZoomRecordingFile.mk "M4A" "https://zoom/a"])
        (round_time_to_hour 35880)).recordings.drop
          (Recordings.mk []).recordings.length).map
        (targetPath (Config.mk "k" "s" "u" "/out" 1 none)) =
      ["/out/1970-01-01/10.00.mp4", "/out/1970-01-01/10.00.m4a"] ∧
    formatTime (round_time_to_hour 35880) ++ "." ++
        to_ascii_lowercase (ZoomRecordingFile.mk "MP4" "https://zoom/v").file_type =
      formatTime (round_time_to_hour 35880) ++ "." ++ "mp4" := by
  constructor
  · rw [(c4_plan_paths (Config.mk "k" "s" "u" "/out" 1 none)
      (ZoomMeeting.mk "st" "tz"
        [ZoomRecordingFile.mk "MP4" "https://zoom/v",
         ZoomRecordingFile.mk "M4A" "https://zoom/a"])
      (round_time_to_hour 35880) (Recordings.mk [])).2.1]
    decide
  · exact (c4_plan_paths (Config.mk "k" "s" "u" "/out" 1 none)
      (ZoomMeeting.mk "st" "tz"
        [ZoomRecordingFile.mk "MP4" "https://zoom/v",
         ZoomRecordingFile.mk "M4A" "https://zoom/a"])
      (round_time_to_hour 35880) (Recordings.mk [])).2.2
      (ZoomRecordingFile.mk "MP4" "https://zoom/v") (by decide) rfl

/-- Left-folding `++` over rendered entries is the initial string followed
by the concatenation of the rendered entries. -/
theorem foldl_append_linesConcat {α : Type} (f : α → String) (l : List α)
    (init : String) :
    l.foldl (fun b x => b ++ f x) init = init ++ linesConcat (l.map f) := by
  induction l generalizing init with
  | nil => simp [linesConcat, String.append_empty]
  | cons a l ih =>
      simp only [List.foldl_cons, List.map_cons, linesConcat, ih,
        String.append_assoc]

/-- C6: the composed notification's subject is today's date (`%Y-%m-%d`)
followed by ": new Zoom recordings", and its body is the fixed header
followed by one line per manifest entry: `dateKey/filename: sourceUrl` in
lambda (remote) mode and `outputDir/dateKey/filename` in local mode. -/
theorem c6_notification_content (transport : Email → Except String Unit)
    (now : Nat) (config : Config) (is_lambda : Bool) (rlist : Recordings) :
    (send_notification transport now config is_lambda rlist).1.subject =
      formatDate now ++ ": new Zoom recordings" ∧
    (send_notification transport now config is_lambda rlist).1.body =
      "Zoom recordings are available:\n\n" ++
        linesConcat (rlist.recordings.map (fun r =>
          if is_lambda then
            r.date ++ "/" ++ r.file.outfile ++ ": " ++ r.file.url ++ "\n"
          else
            config.output_dir ++ "/" ++ r.date ++ "/" ++ r.file.outfile ++
              "\n")) := by
  constructor
  · rfl
  · cases is_lambda <;>
      simp only [send_notification, if_true, if_false, Bool.false_eq_true,
        Bool.true_eq_false] <;>
      exact foldl_append_linesConcat _ _ _

/-- C8: a failing mail transport is never fatal: the manifest, the final
filesystem (all download work) and the composed notification are identical
to those of a run with any other transport, and when a notification was
sent the failure is only logged as a "Couldn't send email" diagnostic. -/
theorem c8_notify_failure_not_fatal (parseLocal : String → String → Nat)
    (remote : String → String) (now : Nat) (config : Config)
    (is_lambda : Bool) (meetings : ZoomMeetings) (fs : Fs) (msg : String)
    (t1 t2 : Email → Except String Unit)
    (hfail : ∀ e, t1 e = Except.error msg) :
    (run parseLocal remote t1 now config is_lambda meetings fs).rlist =
      (run parseLocal remote t2 now config is_lambda meetings fs).rlist ∧
    (run parseLocal remote t1 now config is_lambda meetings fs).fs =
      (run parseLocal remote t2 now config is_lambda meetings fs).fs ∧
    (run parseLocal remote t1 now config is_lambda meetings fs).sent =
      (run parseLocal remote t2 now config is_lambda meetings fs).sent ∧
    (∀ em,
      (run parseLocal remote t1 now config is_lambda meetings fs).sent =
        some em →
      (run parseLocal remote t1 now config is_lambda meetings fs).diag =
        some ("Couldn't send email to " ++ em.recipient ++ ": " ++ msg)) := by
  simp only [run]
  split
  next hcond =>
      refine ⟨rfl, rfl, rfl, ?_⟩
      intro em hem
      injection hem with hem
      subst hem
      simp only [send_notification, hfail]
  next =>
      refine ⟨rfl, rfl, rfl, ?_⟩
      intro em hem
      exact Option.noConfusion hem

/-- C8 witness: with a transport that always fails with "boom" and a
succeeding one, a concrete run produces the same manifest, filesystem and
composed email, and logs the failure diagnostic. -/
theorem c8_notify_failure_not_fatal_witness :
    (run (fun _ _ => 0) (fun _ => "bytes")
        (fun _ => Except.error "boom") 0
        (Config.mk "k" "s" "u" "/out" 1 (some "a@b.c")) false
        (ZoomMeetings.mk [ZoomMeeting.mk "st" "tz"
          [ZoomRecordingFile.mk "MP4" "https://zoom/dl"]])
        (Fs.mk [] [])).rlist =
      (run (fun _ _ => 0) (fun _ => "bytes") (fun _ => Except.ok ()) 0
        (Config.mk "k" "s" "u" "/out" 1 (some "a@b.c")) false
        (ZoomMeetings.mk [ZoomMeeting.mk "st" "tz"
          [ZoomRecordingFile.mk "MP4" "https://zoom/dl"]])
        (Fs.mk [] [])).rlist ∧
    (run (fun _ _ => 0) (fun _ => "bytes")
        (fun _ => Except.error "boom") 0
        (Config.mk "k" "s" "u" "/out" 1 (some "a@b.c")) false
        (ZoomMeetings.mk [ZoomMeeting.mk "st" "tz"
          [ZoomRecordingFile.mk "MP4" "https://zoom/dl"]])
        (Fs.mk [] [])).fs =
      (run (fun _ _ => 0) (fun _ => "bytes") (fun _ => Except.ok ()) 0
        (Config.mk "k" "s" "u" "/out" 1 (some "a@b.c")) false
        (ZoomMeetings.mk [ZoomMeeting.mk "st" "tz"
          [ZoomRecordingFile.mk "MP4" "https://zoom/dl"]])
        (Fs.mk [] [])).fs ∧
    (run (fun _ _ => 0) (fun _ => "bytes")
        (fun _ => Except.error "boom") 0
        (Config.mk "k" "s" "u" "/out" 1 (some "a@b.c")) false
        (ZoomMeetings.mk [ZoomMeeting.mk "st" "tz"
          [ZoomRecordingFile.mk "MP4" "https://zoom/dl"]])
        (Fs.mk [] [])).diag =
      some ("Couldn't send email to " ++
        (Email.mk "a@b.c" "1970-01-01: new Zoom recordings"
          "Zoom recordings are available:\n\n/out/1970-01-01/00.00.mp4\n").recipient
        ++ ": " ++ "boom") :=
  ⟨(c8_notify_failure_not_fatal (fun _ _ => 0) (fun _ => "bytes") 0
      (Config.mk "k" "s" "u" "/out" 1 (some "a@b.c")) false
      (ZoomMeetings.mk [ZoomMeeting.mk "st" "tz"
        [ZoomRecordingFile.mk "MP4" "https://zoom/dl"]])
      (Fs.mk [] []) "boom" (fun _ => Except.error "boom")
      (fun _ => Except.ok ()) (fun _ => rfl)).1,
   (c8_notify_failure_not_fatal (fun _ _ => 0) (fun _ => "bytes") 0
      (Config.mk "k" "s" "u" "/out" 1 (some "a@b.c")) false
      (ZoomMeetings.mk [ZoomMeeting.mk "st" "tz"
        [ZoomRecordingFile.mk "MP4" "https://zoom/dl"]])
      (Fs.mk [] []) "boom" (fun _ => Except.error "boom")
      (fun _ => Except.ok ()) (fun _ => rfl)).2.1,
   (c8_notify_failure_not_fatal (fun _ _ => 0) (fun _ => "bytes") 0
      (Config.mk "k" "s" "u" "/out" 1 (some "a@b.c")) false
      (ZoomMeetings.mk [ZoomMeeting.mk "st" "tz"
        [ZoomRecordingFile.mk "MP4" "https://zoom/dl"]])
      (Fs.mk [] []) "boom" (fun _ => Except.error "boom")
      (fun _ => Except.ok ()) (fun _ => rfl)).2.2.2
     (Email.mk "a@b.c" "1970-01-01: new Zoom recordings"
       "Zoom recordings are available:\n\n/out/1970-01-01/00.00.mp4\n")
     (by decide)⟩

/-- Binding a constant `none` over any option yields `none`. -/
theorem opt_bind_const_none {α β : Type} (x : Option α) :
    x.bind (fun _ => (none : Option β)) = none := by
  cases x <;> rfl

/-- C7 counterexample: serde places no lower bound on `days` (an `i64`): a
config with `"days": -5` parses successfully with `days = -5 < 0`, refuting
the claim's "parsed days ≥ 0" conjunct. -/
theorem c7_counterexample :
    read_config (fun s => some s)
        (Json.obj [("api_key", Json.str "key"),
                   ("api_secret", Json.str "secret"),
                   ("user", Json.str "user@example.com"),
                   ("output_dir", Json.str "/home/me/dir"),
                   ("days", Json.num (-5))]) =
      some (Config.mk "key" "secret" "user@example.com" "/home/me/dir"
        (-5) none) ∧
    ((-5 : Int) < 0) := by
  refine ⟨by decide, by decide⟩

/-- C7 amended: a config missing `user` fails to parse; a config whose
`notify` string is rejected by the mailbox parser fails to parse; a config
omitting `days` parses (when it parses at all) with `days = 1`. The parsed
`days` is an arbitrary `i64`: it is not constrained to be ≥ 0 (see the
counterexample). -/
theorem c7_config_parsing (mailboxFromStr : String → Option String)
    (j : Json) :
    (j.getField "user" = none →
      read_config mailboxFromStr j = none) ∧
    (∀ s, j.getField "notify" = some (Json.str s) →
      mailboxFromStr s = none → read_config mailboxFromStr j = none) ∧
    (j.getField "days" = none →
      ∀ c, read_config mailboxFromStr j = some c → c.days = 1) := by
  refine ⟨?_, ?_, ?_⟩
  · intro h
    rcases hak : (j.getField "api_key").bind Json.asStr with _ | ak <;>
      rcases has : (j.getField "api_secret").bind Json.asStr with _ | as <;>
        simp [read_config, hak, has, h]
  · intro s hn hmb
    rcases hak : (j.getField "api_key").bind Json.asStr with _ | ak <;>
      rcases has : (j.getField "api_secret").bind Json.asStr with _ | as <;>
        rcases hu : (j.getField "user").bind Json.asStr with _ | u <;>
          rcases ho : (j.getField "output_dir").bind Json.asStr with _ | od <;>
            rcases hd : j.getField "days" with _ | dv <;>
              simp [read_config, hak, has, hu, ho, hd, hn, hmb, Json.asStr,
                opt_bind_const_none]
  · intro hd c hc
    rcases hak : (j.getField "api_key").bind Json.asStr with _ | ak <;>
      rcases has : (j.getField "api_secret").bind Json.asStr with _ | as <;>
        rcases hu : (j.getField "user").bind Json.asStr with _ | u <;>
          rcases ho : (j.getField "output_dir").bind Json.asStr with _ | od <;>
            simp only [read_config, hak, has, hu, ho, hd, Option.some_bind,
              Option.none_bind] at hc <;>
              try exact Option.noConfusion hc
    rcases hn : j.getField "notify" with _ | nv
    · simp only [hn, Option.some_bind] at hc
      injection hc with hc
      rw [← hc]
      rfl
    · rcases nv with s | n | fields | _ <;>
        simp only [hn, Option.some_bind, Json.asStr, Option.map_eq_map,
          default_days] at hc <;>
        [skip; exact Option.noConfusion hc;
         exact Option.noConfusion hc; skip]
      · rcases hmb : (mailboxFromStr s) with _ | m
        · rw [hmb] at hc
          exact Option.noConfusion hc
        · rw [hmb] at hc
          injection hc with hc
          rw [← hc]
      · injection hc with hc
        rw [← hc]

/-- C7 witness: the source's own test configs: `{"api_key", "api_secret"}`
without `user` fails; `notify = "<user@foo.com"` (rejected by the mailbox
parser) fails; a valid config omitting `days` parses with `days = 1`. -/
theorem c7_config_parsing_witness :
    read_config (fun s => if s = "<user@foo.com" then none else some s)
        (Json.obj [("api_key", Json.str "key"),
                   ("api_secret", Json.str "secret")]) = none ∧
    read_config (fun s => if s = "<user@foo.com" then none else some s)
        (Json.obj [("api_key", Json.str "key"),
                   ("api_secret", Json.str "secret"),
                   ("output_dir", Json.str "/home/me/dir"),
                   ("user", Json.str "user@example.com"),
                   ("notify", Json.str "<user@foo.com")]) = none ∧
    (Config.mk "key" "secret" "user@example.com" "/home/me/dir" 1
      none).days = 1 :=
  ⟨(c7_config_parsing (fun s => if s = "<user@foo.com" then none else some s)
      (Json.obj [("api_key", Json.str "key"),
                 ("api_secret", Json.str "secret")])).1 (by rfl),
   (c7_config_parsing (fun s => if s = "<user@foo.com" then none else some s)
      (Json.obj [("api_key", Json.str "key"),
                 ("api_secret", Json.str "secret"),
                 ("output_dir", Json.str "/home/me/dir"),
                 ("user", Json.str "user@example.com"),
                 ("notify", Json.str "<user@foo.com")])).2.1
     "<user@foo.com" (by rfl) (by rfl),
   (c7_config_parsing (fun s => if s = "<user@foo.com" then none else some s)
      (Json.obj [("api_key", Json.str "key"),
                 ("api_secret", Json.str "secret"),
                 ("output_dir", Json.str "/home/me/dir"),
                 ("user", Json.str "user@example.com")])).2.2 (by rfl)
     (Config.mk "key" "secret" "user@example.com" "/home/me/dir" 1 none)
     (by rfl)⟩

end ZoomLomax
